import Mathlib

/-!
Verification development for the Smart Patient Case Summarizer backend.
The definitions below are shallow embeddings of the Python source under
src/backend/app: the document-processing pipeline (api/documents.py with
services/ocr_service.py) and the summarization pipeline
(api/summaries.py with services/summarization_service.py).  External
effects (the OCR engine, the generative model, file bytes) are passed in
as oracle functions; database rows become Lean structures and the
session becomes an explicit list of rows.
-/

namespace SmartPatient

/-! ### Python string primitives used by the source -/

/-- Whitespace characters recognised by Python string stripping and by
the regex class backslash-s, restricted to the ASCII range that the
pipeline texts use. -/
def isPySpace (c : Char) : Bool :=
  c = ' ' || c = '\t' || c = '\n' || c = '\x0d' || c = '\x0b' || c = '\x0c'

/-- Python str.strip(): drop leading and trailing whitespace. -/
def pyStrip (s : String) : String :=
  String.mk (((s.data.dropWhile isPySpace).reverse.dropWhile isPySpace).reverse)

/-- Python str.split(sep) for a one-code-point separator, over code
points; empty pieces are kept, and the empty string yields one empty
piece. -/
def pySplitChar (sep : Char) : List Char → List (List Char)
  | [] => [[]]
  | c :: t =>
    match pySplitChar sep t with
    | [] => [[]]
    | h :: r => if c == sep then [] :: h :: r else (c :: h) :: r

/-- Python str.replace(needle, "") for a two-code-point needle:
left-to-right removal of every occurrence. -/
def removeAll2 (a b : Char) : List Char → List Char
  | [] => []
  | [c] => [c]
  | c :: d :: t =>
    if c == a && d == b then removeAll2 a b t
    else c :: removeAll2 a b (d :: t)

/-- Python str.find for a needle that is sought as a code-point
substring: index of the first occurrence, none when absent. -/
def pyFindSub (needle : List Char) : List Char → Option Nat
  | [] => if needle.isPrefixOf [] then some 0 else none
  | c :: t =>
    if needle.isPrefixOf (c :: t) then some 0
    else (pyFindSub needle t).map (· + 1)

/-- Python substring membership test (the in operator on str). -/
def containsSub (hay needle : List Char) : Bool :=
  (pyFindSub needle hay).isSome

/-- Python filename.split(".")[-1].lower(): the declared extension of a
file name, lowercased.  Used both by the upload allow-list and by the
background processor (documents.py lines 34 and 76). -/
def lastExtLower (filename : String) : String :=
  String.mk (((pySplitChar '.' filename.data).getLastD []).map Char.toLower)

/-! ### Data model (models/__init__.py) -/

/-- Row of the documents table; fields as in models/__init__.py lines
46-61 (identifier columns become Nat). -/
structure Document where
  id : Nat
  patientId : Nat
  uploadedBy : Nat
  fileName : String
  fileType : String
  filePath : String
  fileSize : Nat
  ocrText : Option String
  processed : Bool
  processingStatus : String
  errorMessage : Option String
  deriving Repr, DecidableEq

/-- One extracted red flag (JSON dict built in
summarization_service.py lines 164-175). -/
structure RedFlag where
  category : String
  finding : String
  severity : String
  deriving Repr, DecidableEq

/-- One extracted lab result (summarization_service.py lines 194-198). -/
structure LabResult where
  value : String
  unit : String
  deriving Repr, DecidableEq

/-- One extracted medication (summarization_service.py lines 221-225). -/
structure Medication where
  name : String
  dosage : String
  deriving Repr, DecidableEq

/-- The dictionary returned by SummarizationService.generate_summary
(summarization_service.py lines 71-76); lab results keep Python dict
insertion order as an association list. -/
structure SummaryData where
  summaryText : String
  redFlags : List RedFlag
  labResults : List (String × LabResult)
  medications : List Medication
  deriving Repr, DecidableEq

/-- Row of the summaries table (models/__init__.py lines 68-80). -/
structure Summary where
  id : Nat
  patientId : Nat
  createdBy : Nat
  summaryText : String
  redFlags : List RedFlag
  labResults : List (String × LabResult)
  medications : List Medication
  version : Nat
  isLatest : Bool
  deriving Repr, DecidableEq

/-! ### OCR dispatch (services/ocr_service.py) -/

/-- The image extensions accepted by OCRService.extract_text_from_file
(ocr_service.py line 130). -/
def imageExtensions : List String := ["jpg", "jpeg", "png", "tiff", "bmp"]

/-- OCRService.extract_text_from_file (ocr_service.py lines 115-133).
The oracle stands for process_pdf / process_image, the two helpers that
open and read the stored file; an error value models the exception they
may raise.  The Bool of the result records whether a file-reading
helper was invoked at all: the unsupported-type branch raises its
ValueError without ever touching the file. -/
def extractTextFromFile (oracle : String → String → Except String String)
    (filePath fileType : String) : Except String String × Bool :=
  let ft := String.mk (fileType.data.map Char.toLower)
  if ft = "pdf" then (oracle filePath ft, true)
  else if imageExtensions.contains ft then (oracle filePath ft, true)
  else (Except.error ("Unsupported file type: " ++ ft), false)

/-! ### Document upload and background processing (api/documents.py) -/

/-- The upload allow-list (documents.py line 75). -/
def allowedUploadExtensions : List String :=
  ["pdf", "jpg", "jpeg", "png", "tiff", "doc", "docx"]

/-- The file-type validation of upload_document (documents.py lines
74-82). -/
def uploadAccepts (filename : String) : Bool :=
  allowedUploadExtensions.contains (lastExtLower filename)

/-- upload_document (documents.py lines 57-121) reduced to its effect on
the documents table: after the patient check, the extension allow-list
and the size bound, a new row is inserted with processing_status
pending; otherwise the request is rejected and no row is created. -/
def uploadDocument (patientExists : Bool) (patientId userId newId : Nat)
    (filename filePath : String) (fileSize maxSize : Nat) : Option Document :=
  if !patientExists then none
  else if !(uploadAccepts filename) then none
  else if maxSize < fileSize then none
  else some
    { id := newId, patientId := patientId, uploadedBy := userId,
      fileName := filename, fileType := lastExtLower filename,
      filePath := filePath, fileSize := fileSize, ocrText := none,
      processed := false, processingStatus := "pending", errorMessage := none }

/-- Write back a mutated ORM row: every row with the given id is
replaced (the session holds one object per id). -/
def updateDoc (db : List Document) (docId : Nat) (new : Document) : List Document :=
  db.map (fun d => if d.id == docId then new else d)

/-- The body of process_document_background once the document row is
loaded (documents.py lines 29-54): commit the processing status, run
extraction, and commit either the completed row or, in the except
branch, re-query the row and force a failed write with the stringified
exception. -/
def processLoaded (oracle : String → String → Except String String)
    (db : List Document) (docId : Nat) (doc : Document) :
    List Document × List String :=
  let doc1 := { doc with processingStatus := "processing" }
  let db1 := updateDoc db docId doc1
  match (extractTextFromFile oracle doc.filePath (lastExtLower doc.fileName)).1 with
  | Except.ok text =>
    let doc2 := { doc1 with ocrText := some text, processed := true,
                            processingStatus := "completed" }
    (updateDoc db1 docId doc2, ["processing", "completed"])
  | Except.error e =>
    match db1.find? (fun d => d.id == docId) with
    | some d =>
      let d2 := { d with processingStatus := "failed", errorMessage := some e }
      (updateDoc db1 docId d2, ["processing", "failed"])
    | none => (db1, ["processing"])

/-- process_document_background (documents.py lines 21-54).  The first
component is the table after the run; the second lists the
processing_status values committed for the document, one per db.commit
that the run executes, in order.  A missing document is a logged
no-op. -/
def processDocument (oracle : String → String → Except String String)
    (db : List Document) (docId : Nat) : List Document × List String :=
  match db.find? (fun d => d.id == docId) with
  | none => (db, [])
  | some doc => processLoaded oracle db docId doc

/-! ### Summarization service (services/summarization_service.py) -/

/-- A calendar date as Python datetime exposes it to the age formula. -/
structure PyDate where
  year : Nat
  month : Nat
  day : Nat
  deriving Repr, DecidableEq

/-- The date_of_birth argument of _calculate_age as the code observes
it: Python-falsy absence, a value whose ISO parse raises (swallowed by
the bare except), or a successfully obtained date. -/
inductive DOB where
  | absent
  | unparseable
  | parsed (date : PyDate)
  deriving Repr, DecidableEq

/-- Python lexicographic comparison of (month, day) pairs. -/
def pairLt (a b : Nat × Nat) : Bool :=
  a.1 < b.1 || (a.1 = b.1 && a.2 < b.2)

/-- SummarizationService._calculate_age (summarization_service.py lines
139-155): falsy or unparseable input renders "Unknown"; otherwise the
year difference minus one when today's (month, day) precedes the birth
(month, day), stringified. -/
def calculateAge (dateOfBirth : DOB) (today : PyDate) : String :=
  match dateOfBirth with
  | DOB.absent => "Unknown"
  | DOB.unparseable => "Unknown"
  | DOB.parsed dob =>
    toString ((today.year : Int) - (dob.year : Int) -
      (if pairLt (today.month, today.day) (dob.month, dob.day) then 1 else 0))

/-- The windowed check of _extract_red_flags line 170:
summary_text.find(line) locates the first occurrence of the line, and
the literal "RED FLAG" is sought, case-sensitively, in the up to 200
code points before it.  When find returns -1 the Python slice
[max(0,-201):-1] is everything but the last code point. -/
def redFlagWindow (summaryText line : String) : Bool :=
  match pyFindSub line.data summaryText.data with
  | some idx =>
    containsSub ((summaryText.data.drop (idx - 200)).take (idx - (idx - 200)))
      "RED FLAG".data
  | none => containsSub summaryText.data.dropLast "RED FLAG".data

/-- The body of the line loop of _extract_red_flags
(summarization_service.py lines 163-175): append a critical flag for a
line holding the red-circle marker, else a medium abnormal flag for a
warning-marker line whose preceding window holds "RED FLAG". -/
def redFlagStep (summaryText : String) (redFlags : List RedFlag) (line : String) :
    List RedFlag :=
  if line.data.contains '🔴' then
    redFlags ++ [{ category := "critical",
                   finding := pyStrip (String.mk (line.data.filter (fun c => !(c == '🔴')))),
                   severity := "critical" }]
  else if containsSub line.data "⚠️".data && redFlagWindow summaryText line then
    redFlags ++ [{ category := "abnormal",
                   finding := pyStrip (String.mk (removeAll2 '⚠' '️' line.data)),
                   severity := "medium" }]
  else redFlags

/-- SummarizationService._extract_red_flags (summarization_service.py
lines 157-177): fold the line loop over the split lines. -/
def extractRedFlags (summaryText : String) : List RedFlag :=
  ((pySplitChar '\n' summaryText.data).map String.mk).foldl (redFlagStep summaryText) []

/-- Case-insensitive variant of the window check, written from the
claim wording of C6 ("a case-insensitive literal RED FLAG occurs within
the 200 characters preceding that line"), for comparison with the
code. -/
def ciWindowHasRedFlag (summaryText line : String) : Bool :=
  match pyFindSub line.data summaryText.data with
  | some idx =>
    containsSub
      (((summaryText.data.drop (idx - 200)).take (idx - (idx - 200))).map Char.toLower)
      "red flag".data
  | none => false

/-- Red-flag extraction as the claim C6 words it, for comparison with
the code: every critical-marker line yields a critical flag, and every
abnormal-marker line yields a medium abnormal flag exactly when the
case-insensitive window check passes. -/
def claimedRedFlags (summaryText : String) : List RedFlag :=
  ((pySplitChar '\n' summaryText.data).map String.mk).flatMap fun line =>
    (if line.data.contains '🔴' then
      [{ category := "critical",
         finding := pyStrip (String.mk (line.data.filter (fun c => !(c == '🔴')))),
         severity := "critical" }]
     else []) ++
    (if containsSub line.data "⚠️".data && ciWindowHasRedFlag summaryText line then
      [{ category := "abnormal",
         finding := pyStrip (String.mk (removeAll2 '⚠' '️' line.data)),
         severity := "medium" }]
     else [])

/-- Per-line flag of the amended claim C6: a critical-marker line gives
the critical flag; a line with the abnormal but not the critical marker
gives the medium abnormal flag exactly when the case-sensitive literal
"RED FLAG" lies in the 200 code points before the first occurrence of
the line. -/
def amendedLineFlag (summaryText line : String) : Option RedFlag :=
  if line.data.contains '🔴' then
    some { category := "critical",
           finding := pyStrip (String.mk (line.data.filter (fun c => !(c == '🔴')))),
           severity := "critical" }
  else if containsSub line.data "⚠️".data && redFlagWindow summaryText line then
    some { category := "abnormal",
           finding := pyStrip (String.mk (removeAll2 '⚠' '️' line.data)),
           severity := "medium" }
  else none

/-- The amended claim C6 as a function: one optional flag per line, in
line order. -/
def amendedRedFlags (summaryText : String) : List RedFlag :=
  ((pySplitChar '\n' summaryText.data).map String.mk).filterMap (amendedLineFlag summaryText)

/-- The lab regex table of _extract_lab_results (summarization_service.py
lines 182-187): per test, the alternation of name literals tried in
pattern order.  Each pattern continues with a run of separator
characters and a captured number; the optional trailing unit group
never constrains the match. -/
def labAlternatives : List (String × List String) :=
  [("hemoglobin", ["hemoglobin", "hgb", "hb"]),
   ("glucose", ["glucose", "blood sugar"]),
   ("creatinine", ["creatinine", "cr"]),
   ("wbc", ["wbc", "white blood cell"])]

/-- SummarizationService._get_default_unit (summarization_service.py
lines 229-237). -/
def defaultUnit (labName : String) : String :=
  if labName = "hemoglobin" then "g/dL"
  else if labName = "glucose" then "mg/dL"
  else if labName = "creatinine" then "mg/dL"
  else if labName = "wbc" then "K/μL"
  else ""

/-- The regex class of colon, equals and whitespace separating a lab
name from its value. -/
def isSepChar (c : Char) : Bool :=
  c = ':' || c = '=' || isPySpace c

/-- The capture group digits, optional dot, digits: greedy, and never
forced to backtrack because everything after it in the pattern can
match the empty string. -/
def matchNumber (cs : List Char) : Option String :=
  let intPart := cs.takeWhile Char.isDigit
  if intPart.isEmpty then none
  else
    match cs.drop intPart.length with
    | '.' :: rest => some (String.mk (intPart ++ '.' :: rest.takeWhile Char.isDigit))
    | _ => some (String.mk intPart)

/-- Try the whole pattern at one position: alternatives in pattern
order, each followed by separators and the captured number. -/
def tryPatternAt (alts : List String) (cs : List Char) : Option String :=
  alts.findSome? fun k =>
    if k.data.isPrefixOf cs then
      matchNumber ((cs.drop k.length).dropWhile isSepChar)
    else none

/-- re.search: leftmost position at which the pattern matches, yielding
the captured number. -/
def reSearch (alts : List String) : List Char → Option String
  | [] => tryPatternAt alts []
  | c :: t =>
    match tryPatternAt alts (c :: t) with
    | some v => some v
    | none => reSearch alts t

/-- SummarizationService._extract_lab_results (summarization_service.py
lines 179-200): each pattern is searched in the lowercased text; a
match contributes the captured value with the canonical unit of the
test, in pattern (dict insertion) order. -/
def extractLabResults (text : String) : List (String × LabResult) :=
  labAlternatives.filterMap fun p =>
    (reSearch p.2 (text.data.map Char.toLower)).map fun v =>
      (p.1, { value := v, unit := defaultUnit p.1 })

/-! ### Summary generation (api/summaries.py) -/

/-- The Python truthiness filter of summaries.py line 38: ocr_text
contributes only when it is neither NULL nor the empty string. -/
def truthyText (d : Document) : Option String :=
  match d.ocrText with
  | some t => if t = "" then none else some t
  | none => none

/-- generate_summary_background (summaries.py lines 18-88).  The
summarize oracle stands for SummarizationService.generate_summary,
whose generative call is external; an error value models the exception
that the surrounding except swallows, leaving the table unchanged.  On
the success path the code demotes every latest summary of the patient
and inserts the new row; the Summary constructor passes no version, so
the row takes the column default 1 (models/__init__.py line 78). -/
def generateSummaryBackground (summarize : List String → Except String SummaryData)
    (patients : List Nat) (docs : List Document) (summaries : List Summary)
    (patientId userId newId : Nat) : List Summary :=
  if patients.contains patientId then
    let pdocs := docs.filter (fun d => d.patientId == patientId && d.processed)
    if pdocs.isEmpty then summaries
    else
      let texts := pdocs.filterMap truthyText
      if texts.isEmpty then summaries
      else
        match summarize texts with
        | Except.error _ => summaries
        | Except.ok data =>
          (summaries.map fun s =>
            if s.patientId == patientId && s.isLatest then
              { s with isLatest := false }
            else s)
          ++ [{ id := newId, patientId := patientId, createdBy := userId,
                summaryText := data.summaryText, redFlags := data.redFlags,
                labResults := data.labResults, medications := data.medications,
                version := 1, isLatest := true }]
  else summaries

/-- Number of summaries of a patient currently flagged latest. -/
def latestCount (patientId : Nat) (summaries : List Summary) : Nat :=
  summaries.countP (fun s => s.patientId == patientId && s.isLatest)

/-! ### Helper lemmas -/

theorem find?_updateDoc (db : List Document) (docId : Nat) (doc new : Document)
    (h : db.find? (fun d => d.id == docId) = some doc) (hnew : new.id = docId) :
    (updateDoc db docId new).find? (fun d => d.id == docId) = some new := by
  have hp : (new.id == docId) = true := by simp [hnew]
  induction db with
  | nil => simp [List.find?] at h
  | cons d t ih =>
    cases hq : (d.id == docId) with
    | true =>
      simp only [updateDoc, List.map_cons]
      rw [show (if d.id == docId then new else d) = new by simp [hq]]
      exact List.find?_cons_of_pos _ hp
    | false =>
      simp only [updateDoc, List.map_cons]
      rw [show (if d.id == docId then new else d) = d by simp [hq]]
      rw [List.find?_cons_of_neg _ (by simp [hq])]
      rw [List.find?_cons_of_neg _ (by simp [hq])] at h
      exact ih h

theorem latestCount_demote (pid : Nat) (l : List Summary) :
    ((l.map fun s =>
        if s.patientId == pid && s.isLatest then { s with isLatest := false } else s).countP
      (fun s => s.patientId == pid && s.isLatest)) = 0 := by
  induction l with
  | nil => rfl
  | cons s t ih =>
    simp only [List.map_cons, List.countP_cons]
    cases hc : (s.patientId == pid && s.isLatest) with
    | true =>
      rw [ih]
      simp
    | false =>
      rw [ih]
      simp [hc]

theorem redFlagStep_eq (text : String) (acc : List RedFlag) (line : String) :
    redFlagStep text acc line = acc ++ (amendedLineFlag text line).toList := by
  unfold redFlagStep amendedLineFlag
  by_cases h1 : '🔴' ∈ line.data
  · simp [h1]
  · by_cases h2 : containsSub line.data "⚠️".data = true ∧ redFlagWindow text line = true
    · simp [h1, h2]
    · simp [h1, h2]

theorem foldl_redFlagStep (text : String) (lines : List String) (acc : List RedFlag) :
    lines.foldl (redFlagStep text) acc =
      acc ++ lines.filterMap (amendedLineFlag text) := by
  induction lines generalizing acc with
  | nil => simp
  | cons l t ih =>
    simp only [List.foldl_cons, List.filterMap_cons]
    rw [redFlagStep_eq, ih]
    cases amendedLineFlag text l <;> simp

theorem processDocument_found (oracle : String → String → Except String String)
    (db : List Document) (docId : Nat) (doc : Document)
    (hfind : db.find? (fun d => d.id == docId) = some doc) :
    processDocument oracle db docId = processLoaded oracle db docId doc := by
  unfold processDocument
  rw [hfind]

theorem processLoaded_ok (oracle : String → String → Except String String)
    (db : List Document) (docId : Nat) (doc : Document) (t : String)
    (hext : (extractTextFromFile oracle doc.filePath (lastExtLower doc.fileName)).1
      = Except.ok t) :
    processLoaded oracle db docId doc =
      (updateDoc (updateDoc db docId { doc with processingStatus := "processing" }) docId
        { doc with processingStatus := "completed", ocrText := some t, processed := true },
       ["processing", "completed"]) := by
  unfold processLoaded
  rw [hext]

theorem processLoaded_err (oracle : String → String → Except String String)
    (db : List Document) (docId : Nat) (doc d : Document) (e : String)
    (hext : (extractTextFromFile oracle doc.filePath (lastExtLower doc.fileName)).1
      = Except.error e)
    (hfind1 : (updateDoc db docId { doc with processingStatus := "processing" }).find?
      (fun x => x.id == docId) = some d) :
    processLoaded oracle db docId doc =
      (updateDoc (updateDoc db docId { doc with processingStatus := "processing" }) docId
        { d with processingStatus := "failed", errorMessage := some e },
       ["processing", "failed"]) := by
  unfold processLoaded
  rw [hext]
  simp only [hfind1]

/-! ### Concrete fixtures for witnesses and counterexamples -/

/-- A freshly uploaded document, exactly as upload_document inserts it. -/
def docPending : Document :=
  { id := 1, patientId := 1, uploadedBy := 2, fileName := "scan.pdf",
    fileType := "pdf", filePath := "/data/uploads/1/scan.pdf", fileSize := 4,
    ocrText := none, processed := false, processingStatus := "pending",
    errorMessage := none }

/-- A document that a previous run completed. -/
def docCompleted : Document :=
  { docPending with processingStatus := "completed",
                    ocrText := some "old text", processed := true }

/-- A document that a previous run failed. -/
def docFailed : Document :=
  { docPending with processingStatus := "failed",
                    errorMessage := some "previous OCR failure" }

/-- OCR oracle whose read always succeeds. -/
def okOracle : String → String → Except String String :=
  fun _ _ => Except.ok "extracted text"

/-- OCR oracle whose read always fails. -/
def failOracle : String → String → Except String String :=
  fun _ _ => Except.error "storage unreadable"

/-! ### Claim theorems -/

/-- Claim C3: for every document present in the store, when process
returns the document is not left in status processing: if extraction
fails for any reason (unsupported kind, storage unreadable, decode
error), the final write sets status failed, stores the stringified
error, and leaves the extracted text null. -/
theorem c3_extraction_error_forces_failed_write
    (oracle : String → String → Except String String) (db : List Document)
    (docId : Nat) (doc : Document) (e : String)
    (hfind : db.find? (fun d => d.id == docId) = some doc)
    (htext : doc.ocrText = none)
    (hext : (extractTextFromFile oracle doc.filePath (lastExtLower doc.fileName)).1
      = Except.error e) :
    ∃ d', (processDocument oracle db docId).1.find? (fun d => d.id == docId) = some d' ∧
      d'.processingStatus = "failed" ∧ d'.errorMessage = some e ∧ d'.ocrText = none := by
  have hid : ({ doc with processingStatus := "processing" } : Document).id = docId := by
    simpa using List.find?_some hfind
  have h1 := find?_updateDoc db docId doc { doc with processingStatus := "processing" }
    hfind hid
  rw [processDocument_found oracle db docId doc hfind,
    processLoaded_err oracle db docId doc _ e hext h1]
  exact ⟨_, find?_updateDoc _ docId _ _ h1 hid, rfl, rfl, htext⟩

/-- Claim C3 witness: a pending document whose storage read fails ends
failed with the error recorded and no extracted text. -/
theorem c3_witness :
    ∃ d', (processDocument failOracle [docPending] 1).1.find?
        (fun d => d.id == 1) = some d' ∧
      d'.processingStatus = "failed" ∧
      d'.errorMessage = some "storage unreadable" ∧ d'.ocrText = none :=
  c3_extraction_error_forces_failed_write failOracle [docPending] 1 docPending
    "storage unreadable" rfl rfl rfl

/-- Claim C4 (amended): a process invocation on any document found in
the store commits exactly the statuses processing then completed, or
processing then failed, whatever the prior status was; the code has no
guard keeping an already completed or failed document from being
re-processed. -/
theorem c4_commit_trace (oracle : String → String → Except String String)
    (db : List Document) (docId : Nat) (doc : Document)
    (hfind : db.find? (fun d => d.id == docId) = some doc) :
    (processDocument oracle db docId).2 = ["processing", "completed"] ∨
    (processDocument oracle db docId).2 = ["processing", "failed"] := by
  have hid : ({ doc with processingStatus := "processing" } : Document).id = docId := by
    simpa using List.find?_some hfind
  have h1 := find?_updateDoc db docId doc { doc with processingStatus := "processing" }
    hfind hid
  rw [processDocument_found oracle db docId doc hfind]
  cases hext : (extractTextFromFile oracle doc.filePath (lastExtLower doc.fileName)).1 with
  | ok t =>
    left
    rw [processLoaded_ok oracle db docId doc t hext]
  | error e =>
    right
    rw [processLoaded_err oracle db docId doc _ e hext h1]

/-- Claim C4 witness: processing a pending document commits processing
and then a terminal status. -/
theorem c4_commit_trace_witness :
    (processDocument okOracle [docPending] 1).2 = ["processing", "completed"] ∨
    (processDocument okOracle [docPending] 1).2 = ["processing", "failed"] :=
  c4_commit_trace okOracle [docPending] 1 docPending rfl

/-- Claim C4 counterexample: invoking process on a document already in
the terminal status completed moves it back through processing and,
when the read now fails, leaves it failed - the claimed
no-transition-out-of-terminal property is false. -/
theorem c4_counterexample :
    docCompleted.processingStatus = "completed" ∧
    (processDocument failOracle [docCompleted] 1).2 = ["processing", "failed"] ∧
    (processDocument failOracle [docCompleted] 1).1.map
      (fun d => d.processingStatus) = ["failed"] :=
  ⟨rfl, rfl, rfl⟩

/-- Claim C5 (amended): after process runs on a stored document whose
error detail and extracted text start null - every freshly uploaded
document - the error detail is non-null iff the status is failed and
the extracted text is non-null iff the status is completed.  A
successful run sets the text and the completed status but does not
clear a previously stored error detail. -/
theorem c5_field_status_invariant
    (oracle : String → String → Except String String) (db : List Document)
    (docId : Nat) (doc : Document)
    (hfind : db.find? (fun d => d.id == docId) = some doc)
    (herr : doc.errorMessage = none) (htext : doc.ocrText = none) :
    ∃ d', (processDocument oracle db docId).1.find? (fun d => d.id == docId) = some d' ∧
      ((d'.errorMessage ≠ none) ↔ d'.processingStatus = "failed") ∧
      ((d'.ocrText ≠ none) ↔ d'.processingStatus = "completed") := by
  have hid : ({ doc with processingStatus := "processing" } : Document).id = docId := by
    simpa using List.find?_some hfind
  have h1 := find?_updateDoc db docId doc { doc with processingStatus := "processing" }
    hfind hid
  rw [processDocument_found oracle db docId doc hfind]
  cases hext : (extractTextFromFile oracle doc.filePath (lastExtLower doc.fileName)).1 with
  | ok t =>
    rw [processLoaded_ok oracle db docId doc t hext]
    refine ⟨_, find?_updateDoc _ docId _ _ h1 hid, ?_, ?_⟩
    · simpa using herr
    · simp
  | error e =>
    rw [processLoaded_err oracle db docId doc _ e hext h1]
    refine ⟨_, find?_updateDoc _ docId _ _ h1 hid, ?_, ?_⟩
    · simp
    · simpa using htext

/-- Claim C5 witness: a fresh pending document processed with a
successful read satisfies both iff invariants afterwards. -/
theorem c5_witness :
    ∃ d', (processDocument okOracle [docPending] 1).1.find?
        (fun d => d.id == 1) = some d' ∧
      ((d'.errorMessage ≠ none) ↔ d'.processingStatus = "failed") ∧
      ((d'.ocrText ≠ none) ↔ d'.processingStatus = "completed") :=
  c5_field_status_invariant okOracle [docPending] 1 docPending rfl rfl rfl

/-- Claim C5 counterexample: re-running process on a document that
failed earlier, with the read now succeeding, ends with status
completed while the old error detail is still stored - the success
path never clears error_message, so the claimed iff invariant is false
after a caller-initiated retry. -/
theorem c5_counterexample :
    docFailed.errorMessage = some "previous OCR failure" ∧
    (processDocument okOracle [docFailed] 1).1.map
      (fun d => (d.processingStatus, d.errorMessage)) =
      [("completed", some "previous OCR failure")] :=
  ⟨rfl, rfl⟩

/-- Claim C6 counterexample: on the first text the case-insensitive
window check of the claim is met (a lowercase "red flag" precedes the
warning line), so the claim predicts an abnormal flag, yet the code
returns none - the membership test at summarization_service.py line
170 is case-sensitive.  On the second text the claim predicts both a
critical and an abnormal flag for the line carrying both markers, yet
the code's elif emits only the critical one. -/
theorem c6_counterexample :
    extractRedFlags "Here is a red flag context\n⚠️ Low sodium" = [] ∧
    claimedRedFlags "Here is a red flag context\n⚠️ Low sodium" =
      [{ category := "abnormal", finding := "Low sodium", severity := "medium" }] ∧
    extractRedFlags "RED FLAG\n🔴 X ⚠️ Y" =
      [{ category := "critical", finding := "X ⚠️ Y", severity := "critical" }] ∧
    claimedRedFlags "RED FLAG\n🔴 X ⚠️ Y" =
      [{ category := "critical", finding := "X ⚠️ Y", severity := "critical" },
       { category := "abnormal", finding := "🔴 X  Y", severity := "medium" }] :=
  ⟨rfl, rfl, rfl, rfl⟩

/-- Claim C6 (amended): red-flag extraction maps each line of the
generated summary to at most one flag: a critical flag for every line
holding the critical marker; a medium abnormal flag for every line
holding the abnormal but not the critical marker, exactly when the
case-sensitive literal "RED FLAG" occurs within the 200 code points
before the first occurrence of that line in the full text. -/
theorem c6_red_flags_per_line (summaryText : String) :
    extractRedFlags summaryText = amendedRedFlags summaryText := by
  unfold extractRedFlags amendedRedFlags
  rw [foldl_redFlagStep]
  simp

/-- Claim C7: lab extraction on the spec text captures hemoglobin 9.2
with canonical unit g/dL and glucose 110 with canonical unit mg/dL,
and nothing else. -/
theorem c7_lab_extraction :
    extractLabResults "Hemoglobin: 9.2 g/dl, Glucose 110" =
      [("hemoglobin", { value := "9.2", unit := "g/dL" }),
       ("glucose", { value := "110", unit := "mg/dL" })] :=
  rfl

/-- Claim C8: for every declared kind whose lowercasing is outside the
supported set, extraction fails with the unsupported-format error and
the flag recording that a file-reading helper ran stays false - the
ValueError is raised before any byte of the file is read. -/
theorem c8_unsupported_before_io (oracle : String → String → Except String String)
    (filePath fileType : String)
    (h : (["pdf", "jpg", "jpeg", "png", "tiff", "bmp"] : List String).contains
        (String.mk (fileType.data.map Char.toLower)) = false) :
    extractTextFromFile oracle filePath fileType =
      (Except.error ("Unsupported file type: " ++ String.mk (fileType.data.map Char.toLower)),
       false) := by
  have h1 : ¬ String.mk (fileType.data.map Char.toLower) = "pdf" := by
    intro hh
    rw [hh] at h
    exact absurd h (by decide)
  have h2 : imageExtensions.contains (String.mk (fileType.data.map Char.toLower)) = false := by
    cases hq : imageExtensions.contains (String.mk (fileType.data.map Char.toLower)) with
    | false => rfl
    | true =>
      exfalso
      have hm := List.mem_of_elem_eq_true hq
      simp only [imageExtensions, List.mem_cons, List.not_mem_nil, or_false] at hm
      rcases hm with hh | hh | hh | hh | hh <;> rw [hh] at h <;> exact absurd h (by decide)
  simp only [extractTextFromFile]
  rw [if_neg h1]
  simp only [h2, Bool.false_eq_true, if_false]

/-- Claim C8 witness: a txt kind is rejected with the unsupported error
and no read happens. -/
theorem c8_witness :
    extractTextFromFile okOracle "/data/uploads/1/notes.txt" "txt" =
      (Except.error ("Unsupported file type: " ++
        String.mk ("txt".data.map Char.toLower)), false) :=
  c8_unsupported_before_io okOracle "/data/uploads/1/notes.txt" "txt" (by decide)

/-- Claim C9: age computation never fails: absent and unparseable birth
dates render "Unknown"; a parsed date gives the year difference minus
one exactly when today's (month, day) precedes the birth (month, day);
in particular birth 2000-06-15 gives "23" against 2024-06-14 and "24"
against 2024-06-15. -/
theorem c9_age_computation :
    (∀ today : PyDate, calculateAge DOB.absent today = "Unknown") ∧
    (∀ today : PyDate, calculateAge DOB.unparseable today = "Unknown") ∧
    (∀ dob today : PyDate,
      calculateAge (DOB.parsed dob) today =
        toString ((today.year : Int) - (dob.year : Int) -
          (if pairLt (today.month, today.day) (dob.month, dob.day) then 1 else 0))) ∧
    calculateAge (DOB.parsed ⟨2000, 6, 15⟩) ⟨2024, 6, 14⟩ = "23" ∧
    calculateAge (DOB.parsed ⟨2000, 6, 15⟩) ⟨2024, 6, 15⟩ = "24" :=
  ⟨fun _ => rfl, fun _ => rfl, fun _ _ => rfl, rfl, rfl⟩

/-- A processed document with OCR text, for the summarization runs. -/
def docReady : Document :=
  { docPending with ocrText := some "clinical note", processed := true,
                    processingStatus := "completed" }

/-- Summarizer oracle that always returns a fixed summary. -/
def okSummarizer : List String → Except String SummaryData :=
  fun _ => Except.ok { summaryText := "Summary body", redFlags := [],
                       labResults := [], medications := [] }

/-- A pre-existing latest summary of patient 1. -/
def priorSummary : Summary :=
  { id := 50, patientId := 1, createdBy := 2, summaryText := "old",
    redFlags := [], labResults := [], medications := [],
    version := 1, isLatest := true }

/-- Claim C1: a successful summarization commit first demotes every
latest summary of the patient and then inserts the new row as latest,
so afterwards exactly one summary of the patient has is_latest true. -/
theorem c1_single_latest_after_commit
    (summarize : List String → Except String SummaryData)
    (patients : List Nat) (docs : List Document) (summaries : List Summary)
    (patientId userId newId : Nat) (data : SummaryData)
    (hpat : patients.contains patientId = true)
    (hdocs : (docs.filter
      (fun d => d.patientId == patientId && d.processed)).isEmpty = false)
    (htexts : ((docs.filter (fun d => d.patientId == patientId && d.processed)).filterMap
      truthyText).isEmpty = false)
    (hok : summarize ((docs.filter
        (fun d => d.patientId == patientId && d.processed)).filterMap truthyText)
      = Except.ok data) :
    latestCount patientId
      (generateSummaryBackground summarize patients docs summaries
        patientId userId newId) = 1 := by
  unfold latestCount generateSummaryBackground
  simp only [hpat, hdocs, htexts, hok, if_true, Bool.false_eq_true, if_false]
  rw [List.countP_append, latestCount_demote]
  simp [List.countP_cons]

/-- Claim C1 witness: a concrete successful commit over a table already
holding a latest summary leaves exactly one latest row. -/
theorem c1_witness :
    latestCount 1 (generateSummaryBackground okSummarizer [1] [docReady]
      [priorSummary] 1 2 101) = 1 :=
  c1_single_latest_after_commit okSummarizer [1] [docReady] [priorSummary] 1 2 101
    { summaryText := "Summary body", redFlags := [], labResults := [],
      medications := [] } rfl rfl rfl rfl

/-- Claim C2: the code at summaries.py lines 72-80 constructs the new
Summary without a version argument, so every inserted row takes the
column default 1 (models/__init__.py line 78): after two successful
commits for the same patient both stored versions are 1, not 1 and
2. -/
theorem c2_versions_stay_one :
    ((generateSummaryBackground okSummarizer [1] [docReady]
        (generateSummaryBackground okSummarizer [1] [docReady] [] 1 2 101)
        1 2 102).map (fun s => s.version)) = [1, 1] :=
  rfl

/-- Document uploaded with a docx name, as upload_document creates
it. -/
def docDocx : Document :=
  { docPending with fileName := "report.docx", fileType := "docx",
                    filePath := "/data/uploads/1/report.docx" }

/-- Claim C10: a filename whose declared extension is doc or docx
passes the upload allow-list and yields a pending document record, yet
every later process run on that document ends failed with the
unsupported-format detail - the OCR dispatch supports neither doc nor
docx - so the document can never reach status completed. -/
theorem c10_doc_docx_accepted_never_completed (filename : String)
    (h : lastExtLower filename = "doc" ∨ lastExtLower filename = "docx") :
    uploadAccepts filename = true ∧
    (∀ pid uid nid fp sz ms, sz ≤ ms →
      ∃ d, uploadDocument true pid uid nid filename fp sz ms = some d ∧
        d.processingStatus = "pending") ∧
    (∀ (oracle : String → String → Except String String) (db : List Document)
        (docId : Nat) (doc : Document),
      db.find? (fun d => d.id == docId) = some doc → doc.fileName = filename →
      ∃ d', (processDocument oracle db docId).1.find? (fun d => d.id == docId) = some d' ∧
        d'.processingStatus = "failed" ∧ d'.processingStatus ≠ "completed" ∧
        d'.errorMessage = some ("Unsupported file type: " ++ lastExtLower filename)) := by
  have hacc : uploadAccepts filename = true := by
    unfold uploadAccepts
    rcases h with h | h <;> rw [h] <;> decide
  refine ⟨hacc, ?_, ?_⟩
  · intro pid uid nid fp sz ms hsz
    refine ⟨{ id := nid, patientId := pid, uploadedBy := uid, fileName := filename,
              fileType := lastExtLower filename, filePath := fp, fileSize := sz,
              ocrText := none, processed := false, processingStatus := "pending",
              errorMessage := none }, ?_, rfl⟩
    unfold uploadDocument
    rw [hacc]
    simp [Nat.not_lt.mpr hsz]
  · intro oracle db docId doc hfind hname
    have hid : ({ doc with processingStatus := "processing" } : Document).id = docId := by
      simpa using List.find?_some hfind
    have h1 := find?_updateDoc db docId doc { doc with processingStatus := "processing" }
      hfind hid
    have hext : (extractTextFromFile oracle doc.filePath (lastExtLower doc.fileName)).1
        = Except.error ("Unsupported file type: " ++ lastExtLower filename) := by
      rw [hname]
      rcases h with h | h <;> rw [h] <;> rfl
    rw [processDocument_found oracle db docId doc hfind,
      processLoaded_err oracle db docId doc _ _ hext h1]
    exact ⟨_, find?_updateDoc _ docId _ _ h1 hid, rfl,
      (by decide : ("failed" : String) ≠ "completed"), rfl⟩

/-- Claim C10 witness: report.docx is accepted by upload yet its
processing run ends failed with the unsupported-format detail. -/
theorem c10_witness :
    uploadAccepts "report.docx" = true ∧
    (∃ d, uploadDocument true 1 2 3 "report.docx" "/data/uploads/1/report.docx"
        4 10485760 = some d ∧ d.processingStatus = "pending") ∧
    (∃ d', (processDocument okOracle [docDocx] 1).1.find?
        (fun d => d.id == 1) = some d' ∧
      d'.processingStatus = "failed" ∧ d'.processingStatus ≠ "completed" ∧
      d'.errorMessage = some ("Unsupported file type: " ++ lastExtLower "report.docx")) := by
  have h := c10_doc_docx_accepted_never_completed "report.docx" (Or.inr rfl)
  exact ⟨h.1, h.2.1 1 2 3 "/data/uploads/1/report.docx" 4 10485760 (by decide),
    h.2.2 okOracle [docDocx] 1 docDocx rfl rfl⟩

end SmartPatient
